import Mathlib

/-
Verification development for the TextUtils repository.

The Python sources (src/modules/legacy_kannada.py, src/modules/hybrid_pdf_detector.py,
src/modules/ocr_to_word.py) are shallowly embedded below.  Text is modelled as
`List Char` (Python `str` is a sequence of Unicode code points).  Python float
arithmetic on the handful of score/threshold comparisons is modelled by exact
rational arithmetic (`ℚ`); every comparison exercised by a concrete theorem below
is far from a floating-point rounding boundary.  External library calls
(`unicodedata.normalize`, the PDF parsers, the OCR backends) are modelled
explicitly where their behaviour matters and as environment parameters otherwise.
-/

set_option maxRecDepth 100000

namespace TextUtils

/-- Model of Python `str.isspace` / regex `\s` for a single code point. -/
def pyIsSpace (c : Char) : Bool :=
  let n := c.toNat
  (9 ≤ n && n ≤ 13) || (28 ≤ n && n ≤ 32) || n = 0x85 || n = 0xA0 || n = 0x1680 ||
  (0x2000 ≤ n && n ≤ 0x200A) || n = 0x2028 || n = 0x2029 || n = 0x202F ||
  n = 0x205F || n = 0x3000

/-- Model of Python regex `\w` (word character), restricted to the character
repertoire that occurs in this repository's data tables and test strings:
ASCII alphanumerics and underscore, the Latin-1 letters (including U+00AA,
U+00B5, U+00BA and the `À`-`ÿ` letters, excluding `×` and `÷`), Kannada letters
(U+0C85-U+0CB9, U+0CBD, U+0CDE, U+0CE0-U+0CE1) and Kannada digits
(U+0CE6-U+0CEF).  Kannada vowel signs (U+0CBE-U+0CCD) are combining marks and
are not word characters in Python, matching this model. -/
def pyWordChar (c : Char) : Bool :=
  let n := c.toNat
  (0x61 ≤ n && n ≤ 0x7A) || (0x41 ≤ n && n ≤ 0x5A) || (0x30 ≤ n && n ≤ 0x39) ||
  n = 0x5F || n = 0xAA || n = 0xB5 || n = 0xBA ||
  (0xC0 ≤ n && n ≤ 0xFF && n ≠ 0xD7 && n ≠ 0xF7) ||
  (0xC85 ≤ n && n ≤ 0xCB9) || n = 0xCBD || n = 0xCDE ||
  (0xCE0 ≤ n && n ≤ 0xCE1) || (0xCE6 ≤ n && n ≤ 0xCEF)

/-- Characters of the Kannada Unicode block, first entry of
`KANNADA_UNICODE_RANGES`. -/
def inKannadaBlock (c : Char) : Bool :=
  0xC80 ≤ c.toNat && c.toNat ≤ 0xCFF

/-- Membership in `KANNADA_UNICODE_RANGES` (Kannada block plus ZWNJ/ZWJ). -/
def inKannadaRanges (c : Char) : Bool :=
  inKannadaBlock c || (0x200C ≤ c.toNat && c.toNat ≤ 0x200D)

/-- The regex character range `[ಅ-ೞ]` (U+0C85-U+0CDE). -/
def kanLetter (c : Char) : Bool :=
  0xC85 ≤ c.toNat && c.toNat ≤ 0xCDE

/-- The regex character range `[ಕ-ಹ]` (U+0C95-U+0CB9). -/
def kanConsonant (c : Char) : Bool :=
  0xC95 ≤ c.toNat && c.toNat ≤ 0xCB9

/-- The regex character range `[ಕ-ೞ]` (U+0C95-U+0CDE). -/
def kanConsWide (c : Char) : Bool :=
  0xC95 ≤ c.toNat && c.toNat ≤ 0xCDE

/-- The regex character range `[ಾ-ೌ]` (U+0CBE-U+0CCC). -/
def kanMatra (c : Char) : Bool :=
  0xCBE ≤ c.toNat && c.toNat ≤ 0xCCC

/-- The regex character range `[೦-೯]` (Kannada digits U+0CE6-U+0CEF). -/
def kanDigit (c : Char) : Bool :=
  0xCE6 ≤ c.toNat && c.toNat ≤ 0xCEF

/-- The combining-mark ranges stripped by `normalize_unicode`:
`[̀-ͯ᪰-᫿᷀-᷿]`. -/
def strippedMark (c : Char) : Bool :=
  let n := c.toNat
  (0x300 ≤ n && n ≤ 0x36F) || (0x1AB0 ≤ n && n ≤ 0x1AFF) || (0x1DC0 ≤ n && n ≤ 0x1DFF)

/-- Python `str.strip()`. -/
def pyStrip (t : List Char) : List Char :=
  ((t.dropWhile pyIsSpace).reverse.dropWhile pyIsSpace).reverse

/-- `leadsWith pat s` holds when `pat` is an initial segment of `s`. -/
def leadsWith : List Char → List Char → Bool
  | [], _ => true
  | _ :: _, [] => false
  | a :: xs, b :: ys => a = b && leadsWith xs ys

/-- Python substring test `pat in s`. -/
def occursIn (pat : List Char) : List Char → Bool
  | [] => leadsWith pat []
  | c :: rest => leadsWith pat (c :: rest) || occursIn pat rest

/-! ### Model of Unicode NFC (`unicodedata.normalize('NFC', ·)`)

The canonical-composition algorithm of UAX #15 is implemented in full; the
character data tables (combining classes, canonical decompositions, primary
composites) are restricted to the code points whose behaviour the theorems
below depend on: U+0301 (combining acute, class 230) and the Kannada two-part
vowel U+0CCA = U+0CC6 + U+0CC2.  All other characters are treated as inert,
which agrees with the real Unicode data for every character appearing in the
concrete inputs used in this file. -/

/-- Canonical combining class (modelled table). -/
def ccc (c : Char) : Nat :=
  if c.toNat = 0x301 then 230 else 0

/-- Canonical decomposition (modelled table; fully decomposed targets). -/
def canonDecomp (c : Char) : Option (Char × Char) :=
  if c.toNat = 0xCCA then some ('ೆ', 'ೂ') else none

/-- Primary composite (modelled table). -/
def primaryComp (a b : Char) : Option Char :=
  if a.toNat = 0xCC6 && b.toNat = 0xCC2 then some 'ೊ' else none

/-- Canonical decomposition of a string. -/
def decompList (t : List Char) : List Char :=
  t.foldr (fun c acc =>
    match canonDecomp c with
    | some (a, b) => a :: b :: acc
    | none => c :: acc) []

/-- Stable insertion of a combining mark into a sorted run (by combining class). -/
def insertCcc (c : Char) : List Char → List Char
  | [] => [c]
  | d :: rest => if ccc d ≤ ccc c then d :: insertCcc c rest else c :: d :: rest

/-- Stable sort of a run of combining marks by combining class. -/
def sortCcc (l : List Char) : List Char :=
  l.foldl (fun acc c => insertCcc c acc) []

/-- Canonical ordering: sort each maximal run of non-starters by combining
class, leaving starters in place. -/
def canonGo (pending : List Char) : List Char → List Char
  | [] => sortCcc pending
  | c :: rest =>
    if ccc c = 0 then sortCcc pending ++ c :: canonGo [] rest
    else canonGo (pending ++ [c]) rest

/-- Canonical ordering of a whole string. -/
def canonReorder (t : List Char) : List Char :=
  canonGo [] t

/-- Canonical composition pass (UAX #15): `st` is the last starter, `pend` the
combining marks seen since it.  A character composes with the starter only if
no intervening character blocks it (a blocker has class 0 or class ≥ the
character's own class). -/
def compGo (st : Option Char) (pend : List Char) : List Char → List Char
  | [] =>
    match st with
    | some s => s :: pend
    | none => pend
  | c :: rest =>
    match st with
    | none =>
      if ccc c = 0 then pend ++ compGo (some c) [] rest
      else compGo none (pend ++ [c]) rest
    | some s =>
      match primaryComp s c with
      | some comp =>
        if pend.all (fun m => 0 < ccc m && ccc m < ccc c) then
          compGo (some comp) pend rest
        else if ccc c = 0 then (s :: pend) ++ compGo (some c) [] rest
        else compGo (some s) (pend ++ [c]) rest
      | none =>
        if ccc c = 0 then (s :: pend) ++ compGo (some c) [] rest
        else compGo (some s) (pend ++ [c]) rest

/-- Modelled `unicodedata.normalize('NFC', t)`. -/
def nfc (t : List Char) : List Char :=
  compGo none [] (canonReorder (decompList t))

/-- `normalize_unicode` (legacy_kannada.py): NFC normalisation followed by
removal of the stray combining marks in the three stripped ranges. -/
def normalize_unicode (t : List Char) : List Char :=
  if t = [] then []
  else (nfc t).filter (fun c => !strippedMark c)

example : normalize_unicode ['ೆ', '\u0301', 'ೂ'] = ['ೆ', 'ೂ'] := by
  decide

example : normalize_unicode ['ೆ', 'ೂ'] = ['ೊ'] := by
  decide

/-! ### A small regex-substitution engine

`re.sub` scans left to right; at each position it attempts a match, and on a
match of length `n ≥ 1` emits the replacement and resumes immediately after the
consumed characters (boundary assertions in later matches look at the original
characters, so the context passed on is the last consumed character).  On no
match it emits the current character and advances one position.  All patterns in
the sources match at least one character, so a fuel of the string's length
suffices; fuel 0 is never reached on those matchers. -/

def reSubCtx (f : Option Char → List Char → Option (Nat × List Char)) :
    Nat → Option Char → List Char → List Char
  | 0, _, _ => []
  | _ + 1, _, [] => []
  | fuel + 1, prev, c :: rest =>
    match f prev (c :: rest) with
    | some (n, rep) =>
      if n = 0 then c :: reSubCtx f fuel (some c) rest
      else rep ++ reSubCtx f fuel (((c :: rest).take n).getLast?) ((c :: rest).drop n)
    | none => c :: reSubCtx f fuel (some c) rest

/-- Run a context-aware substitution over a whole string. -/
def pySub (f : Option Char → List Char → Option (Nat × List Char))
    (t : List Char) : List Char :=
  reSubCtx f t.length none t

/-- Python `str.replace old new` (all non-overlapping occurrences, left to
right).  The guard `old ≠ []` never fires on the tables used here, whose keys
are all non-empty. -/
def pyReplace (old new t : List Char) : List Char :=
  pySub (fun _ s => if old ≠ [] && leadsWith old s then some (old.length, new) else none) t

example : pyReplace ("aba".data) "X".data ("ababa".data) = "Xba".data := by
  decide

/-- Fuelled scanner for a token regex of the shape `first rest*`
(maximal munch, non-overlapping); a fuel of the string length suffices since
every step consumes at least one character. -/
def tokGo (first rest : Char → Bool) : Nat → List Char → Nat
  | 0, _ => 0
  | _ + 1, [] => 0
  | fuel + 1, c :: t =>
    if first c then 1 + tokGo first rest fuel (t.dropWhile rest)
    else tokGo first rest fuel t

/-- Number of `re.findall` matches for a token regex of the shape
`first rest*`. -/
def tokCount (first rest : Char → Bool) (t : List Char) : Nat :=
  tokGo first rest t.length t

/-- Fuelled scanner for `(\w)\1{4,}`. -/
def repeatRunGo : Nat → List Char → Nat
  | 0, _ => 0
  | _ + 1, [] => 0
  | fuel + 1, c :: t =>
    (if pyWordChar c && 4 ≤ (t.takeWhile (· = c)).length then 1 else 0) +
      repeatRunGo fuel (t.dropWhile (· = c))

/-- Number of `re.findall` matches for `(\w)\1{4,}`: maximal runs of a single
repeated word character with run length at least 5. -/
def repeatRunCount (t : List Char) : Nat :=
  repeatRunGo t.length t

/-- The regex class `[A-Za-z]`. -/
def asciiLetter (c : Char) : Bool :=
  (0x41 ≤ c.toNat && c.toNat ≤ 0x5A) || (0x61 ≤ c.toNat && c.toNat ≤ 0x7A)

/-- Fuelled scanner for `[A-Za-z]{20,}`. -/
def longLatinRunGo : Nat → List Char → Nat
  | 0, _ => 0
  | _ + 1, [] => 0
  | fuel + 1, c :: t =>
    if asciiLetter c then
      (if 19 ≤ (t.takeWhile asciiLetter).length then 1 else 0) +
        longLatinRunGo fuel (t.dropWhile asciiLetter)
    else longLatinRunGo fuel t

/-- Number of `re.findall` matches for `[A-Za-z]{20,}`: maximal ASCII-letter
runs of length at least 20. -/
def longLatinRunCount (t : List Char) : Nat :=
  longLatinRunGo t.length t

/-- Number of `re.findall` matches for `^[^\w\s]*$` without `re.MULTILINE`:
one (empty or full) match exactly when the string, minus one optional final
newline, consists only of non-word non-space characters. -/
def punctOnlyMatchCount (t : List Char) : Nat :=
  let core := if t.getLast? = some '\n' then t.dropLast else t
  if core.all (fun c => !pyWordChar c && !pyIsSpace c) then 1 else 0

/-- `is_kannada_text` (legacy_kannada.py): ratio of characters from
`KANNADA_UNICODE_RANGES` over non-space, non-listed-punctuation characters is
strictly above 0.2. -/
def is_kannada_text (t : List Char) : Bool :=
  if pyStrip t = [] then false
  else
    let counted := t.filter (fun c => !(pyIsSpace c || (".,!?;:()-").data.contains c))
    let total := counted.length
    let kan := (counted.filter inKannadaRanges).length
    decide (0 < total) && decide (total < 5 * kan)

example : is_kannada_text ("ಕಕಕಕ gÀ PÀ".data) = true := by decide

example : is_kannada_text ("F".data) = false := by decide

/-- `re.findall` count for the Kannada word regex `[ಅ-ೞ][ಅ-ೞಾ-ೌ]*`. -/
def kannadaWordCount (t : List Char) : Nat :=
  tokCount kanLetter (fun c => kanLetter c || kanMatra c) t

example : kannadaWordCount ("ಕಕಕಕ gÀ PÀ".data) = 1 := by decide

/-! ### The substitution tables -/

/-- The `LEGACY_TO_UNICODE` dict literal in source order, duplicate keys included; Python dict semantics (first position wins, last value wins) are recovered by `dictOf`. -/
def rawLegacyEntries : List (String × String) := [
  ("AiÀÄ", "ಆ"), ("ªÀ", "ಅ"), ("EgÀ", "ಇ"), ("EgÀÄ", "ಈ"),
  ("GvÀÛ", "ಉ"), ("GvÀÛÄ", "ಊ"), ("F", "ಎ"), ("¥À", "ಏ"),
  ("AiÉÆ", "ಐ"), ("AiÀiÁ", "ಒ"), ("AiÀiÁÄ", "ಓ"), ("AiÀiï", "ಔ"),
  ("£À", "ನ"), ("PÀ", "ಡ"), ("gÀ", "ಗ"), ("µÀ", "ಮ"),
  ("zÀ", "ಜ"), ("dÄ", "ತ"), ("¸À", "ಸ"), ("¨sÀ", "ಹ"),
  ("®", "ಕ"), ("C", "ಚ"), ("r", "ರ"), ("¯À", "ಪ"),
  ("§", "ಲ"), ("ªÀiÁ", "ಯ"), ("ªÀÄ", "ವ"), ("²", "ಬ"),
  ("¢", "ಖ"), ("¤", "ಘ"), ("¥", "ಙ"), ("¦", "ಛ"),
  ("¨", "ಝ"), ("©", "ಞ"), ("ª", "ಟ"), ("«", "ಠ"),
  ("¬", "ಢ"), ("­", "ಣ"), ("®", "ಪ"), ("¯", "ಫ"),
  ("°", "ಭ"), ("±", "ಮ"), ("²", "ಯ"), ("³", "ರ"),
  ("´", "ಲ"), ("µ", "ವ"), ("¶", "ಶ"), ("·", "ಷ"),
  ("¸", "ಸ"), ("¹", "ಹ"), ("º", "ಳ"), ("»", "ೞ"),
  ("À", "ಾ"), ("Á", "ಿ"), ("Â", "ೀ"), ("Ã", "ು"),
  ("Ä", "ೂ"), ("Å", "ೃ"), ("Æ", "ೄ"), ("Ç", "ೆ"),
  ("È", "ೇ"), ("É", "ೈ"), ("Ê", "ೊ"), ("Ë", "ೋ"),
  ("Ì", "ೌ"), ("Í", "್"), ("MAಜ", "ಮಜ"), ("ಜA", "ಜ"),
  ("ºಾ", "ಸಾ"), ("ವಆ", "ವ"), ("ಸÛಡU", "ಸಂಡ"), ("ಾ¼ಾ", "ಾದಾ"),
  ("ಲU", "ಲ"), ("ೀR", "ೀರ"), ("åವA", "ಾವ"), ("æಆ", "ೆ"),
  ("ಚx", "ಚ"), ("ಾð", "ಾತ"), ("DVಗ", "ದ್ವಿಗ"), ("ಬæೂ", "ಬೊ"),
  ("ಜÝಗ", "ಜ್ಞಗ"), ("Áವಆ", "ಅವ"), ("åನ", "ಾನ"), ("ವä", "ವ"),
  ("ಗಲ", "ಗಲ"), ("ೆೆ", "ೆ"), ("ಮï", "ಮ"), ("nè", "ನೆ"),
  ("ದÕಗ", "ದಾಗ"), ("ಸೀ", "ಸೀ"), ("ಗಅಸ", "ಗಸ"), ("sÁಮ", "ಸಮ"),
  ("ತಜè", "ತಜೆ"), ("Áಜ", "ಅಜ"), ("ಗಏರ", "ಗರ"), ("Dಾಆ", "ದಾ"),
  ("DನA", "ದನ"), ("ವಾಗ", "ವಾಗ"), ("ಬಡëತ", "ಬಡತ"), ("EÁಸ", "ಇಸ"),
  ("ೆಆೀ", "ೆೀ"), ("ವಾÛೆ", "ವಾೆ"), ("ೂವ", "ೂವ"), ("ಾಗUಾ", "ಾಗಾ"),
  ("ವಆಅಗ", "ವಅಗ"), ("ೆVನ", "ೆನ"), ("åÏೀ", "ಾೀ"), ("UÁV", "ದಿ"),
  ("ಗಅ¹", "ಗ"), ("ಖÁAಡ", "ಖಡ"), ("Dzೆ", "ದಿ"), ("ೂಾº", "ೂಸ"),
  ("ೆುಗ", "ೆಗ"), ("ರ¹ವ", "ರವ"), ("ಾೀ", "ಾ"), ("ಿಎ", "ಇ"),
  ("ಮಆª", "ಮ"), ("Áಗ", "ಅಗ"), ("ಯನಜA", "ಯನಜ"), ("qಾ", "ಗಾ"),
  ("ಡೊ", "ಡೊ"), ("ÁV", ""), ("Áಜ", "ಅಜ"), ("ೀß", "ೀ"),
  ("ಾ¼", "ಾದ"), ("ೆ½", "ೆ"), ("zೆ", "ಜೆ"), ("ಜÝ", "ಜ್ಞ"),
  ("ಕè", "ಕೆ"), ("zತ", "ಜತ"), ("ÁZ", "ಅ"), ("ೆU", "ೆ"),
  ("åÏ", "ಾ"), ("ರ¹", "ರ"), ("qಾ", "ಗಾ"), ("ªÁ", ""),
  ("Ýೂ", "ೂ"), ("ªೆ", "ೆ"), ("ಅð", "ಅತ"), ("üÁ", ""),
  ("æÆ", "ೆ"), ("Åz", ""), ("ೆA", "ೆ"), ("åQ", "ಾ"),
  ("Û", ""), ("ಸé", "ಸೆ"), ("Aೆ", "ೆ"), ("æೂ", "ೊ"),
  ("ುೂ", "ೂ"), ("AೆÜ", "ೆ"), ("ಸA", "ಸ"), ("Wಾ", "ವಾ"),
  ("Pೆ", "ಪೆ"), ("ೊಡ", "ೊಡ"), ("¼ಾ", "ದಾ"), ("ೀ¹", "ೀ"),
  ("ಜÝಗ", "ಜ್ಞಗ"), ("ಏೊ", "ಏ"), ("ೆV", "ೆ"), ("ಾಗU", "ಾಗ"),
  ("ೂ¹", "ೂ"), ("ಾÛ", "ಾ"), ("ೀÛ", "ೀ"), ("ೆU", "ೆ"),
  ("ಾ½", "ಾ"), ("ೀß", "ೀ"), ("ಾ¼ಾ", "ಾದಾ"), ("ಲUೆ", "ಲೆ"),
  ("ೌ", "ೌ"), ("ಏæಡ", "ಏಡ"), ("ಲUೆ", "ಲೆ"), ("ುAqಾ", "ುಗಾ"),
  ("Áಅðದಡ", "ಅತದಡ"), ("ಚüÁæಆUಾ¼ಾ", "ಚೆದಾ"), ("ನೀß", "ನೀ"), ("Uಾ", "ದಾ"),
  ("ವ¹", "ವ"), ("ಯ", "ಯ"), ("ನå", "ನಾ"), ("ವ", "ವ"),
  ("ೀRåವAವæಆಅಗ", "ೀರಾವವೆಅಗ"), ("ു", "ು"), ("ಚxಾðಸಅಅಗ", "ಚಾತಸಅಅಗ")
]

/-- The `OCR_CORRECTIONS` dict literal in source order. -/
def rawOcrEntries : List (String × String) := [
  ("0", "೦"), ("1", "೧"), ("2", "೨"), ("3", "೩"),
  ("4", "೪"), ("5", "೫"), ("6", "೬"), ("7", "೭"),
  ("8", "೮"), ("9", "೯"), ("o", "ೊ"), ("O", "ಒ"),
  ("e", "ೆ"), ("u", "ು"), ("i", "ಿ"), ("a", "ಅ"),
  ("|", "ಲ್"), ("l", "ಲ"), ("I", "ಇ"), ("S", "ಸ"),
  ("m", "ಮ"), ("n", "ನ"), ("r", "ರ"), ("t", "ತ"),
  ("d", "ದ"), ("p", "ಪ"), ("b", "ಬ"), ("k", "ಕ"),
  ("g", "ಗ"), ("j", "ಜ"), ("c", "ಚ"), ("h", "ಹ"),
  ("y", "ಯ"), ("v", "ವ"), ("w", "ವ"), ("MAಜ", "ಮಜ"),
  ("DVಗ", "ದ್ವಿಗ"), ("ಬæೂ", "ಬೊ"), ("ಜÝಗ", "ಜ್ಞಗ"), ("ದÕಗ", "ದಾಗ"),
  ("ಸÛಡ", "ಸಂಡ"), ("zsಾ", "ಸಾ"), ("ಚzs", "ಚಸ"), ("DನA", "ದನ"),
  ("ಬಡëತ", "ಬಡತ"), ("EÁಸ", "ಇಸ"), ("ಗಏರ", "ಗರ"), ("ಖÁA", "ಖ"),
  ("Dzೆ", "ದಿ"), ("ೂಾº", "ೂಸ"), ("ರ¹ವ", "ರವ"), ("Á", ""),
  ("ß", ""), ("¼", "ದ"), ("½", ""), ("¹", ""),
  ("Û", ""), ("Ý", ""), ("æ", ""), ("ü", ""),
  ("ð", "ತ"), ("è", "ೆ"), ("å", "ಾ"), ("ë", ""),
  ("Q", ""), ("Z", ""), ("X", ""), ("V", ""),
  ("A", ""), ("U", "")
]

/-- Python dict update: replace the value at an existing key in place, else
append at the end (insertion order is preserved, as in Python dicts). -/
def dictUpd : List (List Char × List Char) → List Char → List Char →
    List (List Char × List Char)
  | [], k, v => [(k, v)]
  | (k0, v0) :: rest, k, v =>
    if k0 = k then (k0, v) :: rest else (k0, v0) :: dictUpd rest k v

/-- Build the association list a Python dict literal denotes. -/
def dictOf (l : List (String × String)) : List (List Char × List Char) :=
  l.foldl (fun acc p => dictUpd acc p.1.data p.2.data) []

/-- `sorted(d.items(), key=lambda x: -len(x[0]))`: stable sort, longest key
first (Mathlib's insertion sort is stable, like Python's sort). -/
def byKeyLenDesc (a b : List Char × List Char) : Prop :=
  b.1.length ≤ a.1.length

instance : DecidableRel byKeyLenDesc := fun a b => Nat.decLe b.1.length a.1.length

/-- The legacy table in application order (longest key first). -/
def legacySorted : List (List Char × List Char) :=
  List.insertionSort byKeyLenDesc (dictOf rawLegacyEntries)

/-- The OCR-corrections table in application order (longest key first). -/
def ocrSorted : List (List Char × List Char) :=
  List.insertionSort byKeyLenDesc (dictOf rawOcrEntries)

/-- Apply an ordered list of exact substitutions, with the source's
`if legacy in result` guard (semantically a no-op, kept for fidelity). -/
def applyReplacements (table : List (List Char × List Char)) (t : List Char) :
    List Char :=
  table.foldl (fun acc p => if occursIn p.1 acc then pyReplace p.1 p.2 acc else acc) t

/-- `fix_ocr_errors` (legacy_kannada.py): apply `OCR_CORRECTIONS`, longest key
first. -/
def fix_ocr_errors (t : List Char) : List Char :=
  if t = [] then [] else applyReplacements ocrSorted t

/-! ### `LEGACY_PATTERNS` (apply_pattern_conversions)

Each `(regex, replacement)` rule is embedded as a matcher for the substitution
engine.  The `try/except re.error` in the source never fires (all patterns are
valid), so it is not modelled. -/

/-- `([ಕ-ಹ])A` → `\1`. -/
def mConsA (_ : Option Char) (s : List Char) : Option (Nat × List Char) :=
  match s with
  | c :: 'A' :: _ => if kanConsonant c then some (2, [c]) else none
  | _ => none

/-- `([ಕ-ಹ])mA` → `\1m` for a fixed vowel sign `m` (rules 2-5). -/
def mConsMatraA (m : Char) (_ : Option Char) (s : List Char) :
    Option (Nat × List Char) :=
  match s with
  | c :: x :: 'A' :: _ =>
    if kanConsonant c && x = m then some (3, [c, x]) else none
  | _ => none

/-- `([೦-೯])A` → `\1`. -/
def mDigitA (_ : Option Char) (s : List Char) : Option (Nat × List Char) :=
  match s with
  | c :: 'A' :: _ => if kanDigit c then some (2, [c]) else none
  | _ => none

/-- `([೦-೯])ಾ` → `\1`. -/
def mDigitAa (_ : Option Char) (s : List Char) : Option (Nat × List Char) :=
  match s with
  | c :: 'ಾ' :: _ => if kanDigit c then some (2, [c]) else none
  | _ => none

/-- `mm+` → `m` for a fixed vowel sign `m` (rules 8-11): a maximal run of at
least two copies collapses to one. -/
def mCollapse (m : Char) (_ : Option Char) (s : List Char) :
    Option (Nat × List Char) :=
  let run := s.takeWhile (· = m)
  if 2 ≤ run.length then some (run.length, [m]) else none

/-- `([ಕ-ಹ])x([ಕ-ಹ])` → `\1 \2` for a fixed middle character (rules 12-14). -/
def mConsMidCons (x : Char) (_ : Option Char) (s : List Char) :
    Option (Nat × List Char) :=
  match s with
  | c :: y :: d :: _ =>
    if kanConsonant c && y = x && kanConsonant d then some (3, [c, ' ', d]) else none
  | _ => none

/-- `\bA([ಕ-ಹ])` → `\1`.  `A` is a word character, so the boundary holds
exactly when the previous original character is absent or not a word
character. -/
def mBdryACons (prev : Option Char) (s : List Char) : Option (Nat × List Char) :=
  match s with
  | 'A' :: d :: _ =>
    if (match prev with | none => true | some p => !pyWordChar p) && kanConsonant d
    then some (2, [d]) else none
  | _ => none

/-- `([ಕ-ಹ])A\b` → `\1`: the character after `A` is absent or not a word
character. -/
def mConsABdry (_ : Option Char) (s : List Char) : Option (Nat × List Char) :=
  match s with
  | c :: 'A' :: rest =>
    if kanConsonant c && (match rest with | [] => true | d :: _ => !pyWordChar d)
    then some (2, [c]) else none
  | _ => none

/-- `\bÁ` → empty (the deleted character still provides the boundary context
for the continuation, as in the original string). -/
def mBdryAacute (prev : Option Char) (s : List Char) : Option (Nat × List Char) :=
  match s with
  | 'Á' :: _ =>
    if (match prev with | none => true | some p => !pyWordChar p)
    then some (1, []) else none
  | _ => none

/-- `Á\b` → empty. -/
def mAacuteBdry (_ : Option Char) (s : List Char) : Option (Nat × List Char) :=
  match s with
  | 'Á' :: rest =>
    if (match rest with | [] => true | d :: _ => !pyWordChar d)
    then some (1, []) else none
  | _ => none

/-- `apply_pattern_conversions` (legacy_kannada.py): the fourteen
`LEGACY_PATTERNS` rules applied in order. -/
def apply_pattern_conversions (t : List Char) : List Char :=
  if t = [] then []
  else
    let r := pySub mConsA t
    let r := pySub (mConsMatraA 'ಾ') r
    let r := pySub (mConsMatraA 'ೆ') r
    let r := pySub (mConsMatraA 'ೀ') r
    let r := pySub (mConsMatraA 'ೂ') r
    let r := pySub mDigitA r
    let r := pySub mDigitAa r
    let r := pySub (mCollapse 'ಾ') r
    let r := pySub (mCollapse 'ೆ') r
    let r := pySub (mCollapse 'ೀ') r
    let r := pySub (mCollapse 'ೂ') r
    let r := pySub (mConsMidCons 'ಆ') r
    let r := pySub (mConsMidCons 'U') r
    let r := pySub (mConsMidCons 'Á') r
    let r := pySub mBdryACons r
    let r := pySub mConsABdry r
    let r := pySub mBdryAacute r
    let r := pySub mAacuteBdry r
    r

/-- `convert_legacy_to_unicode` (legacy_kannada.py): exact substitutions,
longest key first, then the pattern rules. -/
def convert_legacy_to_unicode (t : List Char) : List Char :=
  if t = [] then []
  else apply_pattern_conversions (applyReplacements legacySorted t)

example : convert_legacy_to_unicode ("ªÀ£ÀPÀAiÀÄ".data) = "ಅನಡಆ".data := by decide

/-! ### `clean_ocr_artifacts` -/

/-- `\s+` → a single space. -/
def mWsRun (_ : Option Char) (s : List Char) : Option (Nat × List Char) :=
  let run := s.takeWhile pyIsSpace
  if 1 ≤ run.length then some (run.length, [' ']) else none

/-- `\s+[.,:;!?]\s+` → a single space. -/
def mIsolatedPunct (_ : Option Char) (s : List Char) : Option (Nat × List Char) :=
  let ws1 := s.takeWhile pyIsSpace
  if ws1.length = 0 then none
  else
    match s.drop ws1.length with
    | p :: rest =>
      if (".,:;!?").data.contains p then
        let ws2 := rest.takeWhile pyIsSpace
        if ws2.length = 0 then none
        else some (ws1.length + 1 + ws2.length, [' '])
      else none
    | [] => none

/-- `([ಕ-ೞ])([ಕ-ೞ][ಾ-ೌ])` → `\1 \2`. -/
def mKanPairSplit (_ : Option Char) (s : List Char) : Option (Nat × List Char) :=
  match s with
  | c :: d :: e :: _ =>
    if kanConsWide c && kanConsWide d && kanMatra e then some (3, [c, ' ', d, e])
    else none
  | _ => none

/-- `([ಕ-ೞ])([೦-೯])` → `\1 \2`. -/
def mLetterDigit (_ : Option Char) (s : List Char) : Option (Nat × List Char) :=
  match s with
  | c :: d :: _ =>
    if kanConsWide c && kanDigit d then some (2, [c, ' ', d]) else none
  | _ => none

/-- `([೦-೯])([ಕ-ೞ])` → `\1 \2`. -/
def mDigitLetter (_ : Option Char) (s : List Char) : Option (Nat × List Char) :=
  match s with
  | c :: d :: _ =>
    if kanDigit c && kanConsWide d then some (2, [c, ' ', d]) else none
  | _ => none

/-- The fifteen artifact characters removed one by one by
`clean_ocr_artifacts`. -/
def artifactChars : List Char :=
  ("Áß¼½¹ÛÝæüðåëQZX").data

/-- The character class kept by the cleanup filter
`[^ಀ-೿‌‍\s\w.,!?;:()\-೦-೯]` → removal (same class as the validator's
artifact counter). -/
def keptByCleanup (c : Char) : Bool :=
  inKannadaBlock c || (0x200C ≤ c.toNat && c.toNat ≤ 0x200D) || pyIsSpace c ||
  pyWordChar c || (".,!?;:()-").data.contains c || kanDigit c

/-- `clean_ocr_artifacts` (legacy_kannada.py). -/
def clean_ocr_artifacts (t : List Char) : List Char :=
  if t = [] then []
  else
    let r := pySub mWsRun t
    let r := pySub mIsolatedPunct r
    let r := pySub mKanPairSplit r
    let r := artifactChars.foldl (fun acc a => pyReplace [a] [] acc) r
    let r := r.filter keptByCleanup
    let r := pySub mLetterDigit r
    let r := pySub mDigitLetter r
    pyStrip r

/-! ### Legacy detection, post-processing pipeline and output validation -/

/-- The `strong_legacy_indicators` list. -/
def strongLegacyIndicators : List String :=
  ["AiÀÄ", "ªÀ", "£À", "PÀ", "gÀ", "µÀ", "¸À", "¨sÀ", "dÄ", "zÀ"]

/-- The `ocr_artifacts` marker list of `detect_legacy_encoding`. -/
def ocrArtifactMarkers : List String :=
  ["MAಜ", "DVಗ", "ಸÛಡ", "ಜÝ", "Dzೆ", "ೂಾº", "ಬæೂ", "zsಾ", "ಚzs", "DನA"]

/-- Number of patterns from the list occurring in the text. -/
def countPresent (pats : List String) (t : List Char) : Nat :=
  (pats.filter (fun p => occursIn p.data t)).length

/-- `detect_legacy_encoding` (legacy_kannada.py). -/
def detect_legacy_encoding (t : List Char) : Bool :=
  if t = [] then false
  else if is_kannada_text t && decide (3 < kannadaWordCount t) then false
  else if 2 ≤ countPresent strongLegacyIndicators t then true
  else if 3 ≤ countPresent ocrArtifactMarkers t && !is_kannada_text t then true
  else
    let total := (t.filter (fun c => !pyIsSpace c)).length
    if 20 < total then
      let kan := (t.filter kanLetter).length
      let nonAscii := (t.filter (fun c => 0x7F < c.toNat)).length
      decide (7 * total < 10 * nonAscii) && decide (5 * kan < total)
    else false

/-- Steps 1-5 of `post_process_kannada_text`: OCR fixes, optional legacy
conversion (guarded by the hint or the detector), artifact cleanup, Unicode
normalisation and whitespace normalisation. -/
def ppFirstPass (t : List Char) (isLegacy : Bool) : List Char :=
  let r := fix_ocr_errors t
  let r := if isLegacy || detect_legacy_encoding r then
      apply_pattern_conversions (convert_legacy_to_unicode r)
    else r
  let r := clean_ocr_artifacts r
  let r := normalize_unicode r
  pyStrip (pySub mWsRun r)

/-- Step 6 of `post_process_kannada_text`: forced legacy conversion followed by
the same cleanup tail. -/
def ppSecondPass (t : List Char) : List Char :=
  let r := apply_pattern_conversions (convert_legacy_to_unicode t)
  let r := clean_ocr_artifacts r
  let r := normalize_unicode r
  pyStrip (pySub mWsRun r)

/-- `post_process_kannada_text` (legacy_kannada.py): the first pass, then —
when the result still fails `is_kannada_text` and the *current* (processed)
text is longer than 10 characters — one forced second pass. -/
def post_process_kannada_text (t : List Char) (isLegacy : Bool) : List Char :=
  if t = [] then []
  else if !is_kannada_text (ppFirstPass t isLegacy) &&
      decide (10 < (ppFirstPass t isLegacy).length) then
    ppSecondPass (ppFirstPass t isLegacy)
  else ppFirstPass t isLegacy

/-- `validate_kannada_output` (legacy_kannada.py).  Thresholds
`len(text) * 0.1` and punctuation ratio `0.3` are modelled exactly in ℚ,
cleared to integer comparisons. -/
def validate_kannada_output (t : List Char) : Bool × List String :=
  if pyStrip t = [] then (false, ["Empty or whitespace-only text"])
  else
    let i1 : List String :=
      if !is_kannada_text t then ["Insufficient Kannada characters detected"] else []
    let artifactCount := (t.filter (fun c => !keptByCleanup c)).length
    let i2 : List String :=
      if 10 * artifactCount > t.length then ["Excessive non-Kannada artifacts detected"] else []
    let punctCount := (t.filter (fun c => (".,!?;:").data.contains c)).length
    let i3 : List String :=
      if 10 * punctCount > 3 * t.length then ["Excessive punctuation detected"] else []
    let i4 : List String :=
      if t ≠ nfc t then ["Text not properly normalized"] else []
    let issues := i1 ++ i2 ++ i3 ++ i4
    (issues.isEmpty, issues)

/-! ### hybrid_pdf_detector.py -/

/-- Result of `_analyze_text_quality`. -/
structure QualityResult where
  quality_score : ℚ
  sample_text : List Char
  languages : List String
  notes : List String
deriving DecidableEq

/-- `_analyze_text_quality` (hybrid_pdf_detector.py).  The four additive score
components and the cap at 1.0 are modelled exactly in ℚ; the `:.2f` float
rendering inside the high-artifact note is elided (integer renderings are kept
exact). -/
def analyze_text_quality (t : List Char) : QualityResult :=
  if pyStrip t = [] then ⟨0, [], [], ["No text extracted"]⟩
  else
    let nt := normalize_unicode t
    let sample := nt.take 500
    let kanFound := is_kannada_text nt
    let score1 : ℚ := if kanFound then 2/5 else 0
    let n1 : List String :=
      if kanFound then ["Kannada text detected"] else ["No Kannada text detected"]
    let langs : List String := if kanFound then ["kannada"] else []
    let textLen := (pyStrip nt).length
    let score2 : ℚ := if 100 < textLen then 1/5 else 0
    let n2 : List String :=
      if 100 < textLen then
        ["Substantial text length: " ++ toString textLen ++ " chars"] else []
    let artifactScore :=
      (nt.filter (fun c =>
        !(inKannadaBlock c || (0x20 ≤ c.toNat && c.toNat ≤ 0x7E) ||
          (0xA0 ≤ c.toNat && c.toNat ≤ 0xFF) || pyIsSpace c))).length +
      repeatRunCount nt + punctOnlyMatchCount nt + longLatinRunCount nt
    let ratioLow := decide ((artifactScore : ℚ) / (max textLen 1 : ℚ) < 1/10)
    let score3 : ℚ := if ratioLow then 3/10 else 0
    let n3 : List String :=
      if ratioLow then ["Low artifact ratio"] else ["High artifact ratio"]
    let wordCount := tokCount kanLetter kanLetter nt
    let score4 : ℚ := if 10 < wordCount then 1/10 else 0
    let n4 : List String :=
      if 10 < wordCount then
        ["Found (" ++ toString wordCount ++ ") Kannada words"] else []
    ⟨min (score1 + score2 + score3 + score4) 1, sample, langs, n1 ++ n2 ++ n3 ++ n4⟩

/-- Basic structural information reported by a PDF reader
(`_get_basic_pdf_info`). -/
structure ProbeInfo where
  page_count : Nat
  is_encrypted : Bool
  creator : List Char
  producer : List Char

/-- Aggregate of `_extract_text_multiple_methods`. -/
structure TextResults where
  extracted_text : List Char
  has_text_layer : Bool
  pages_with_text : Nat
  sampled_pages : Nat
  total_pages : Nat
  notes : List String

/-- Result of `_classify_pdf_type`. -/
structure ClassifyResult where
  pdf_type : String
  needs_ocr : Bool
  confidence : ℚ
  notes : List String
deriving DecidableEq

/-- `_classify_pdf_type` (hybrid_pdf_detector.py): the deterministic decision
table.  Thresholds: `min_quality_score = 0.3` and page-coverage split `0.3`. -/
def classify_pdf_type (_basic : ProbeInfo) (tr : TextResults) (qa : QualityResult) :
    ClassifyResult :=
  if !tr.has_text_layer then
    ⟨"scanned", true, 9/10, ["No text layer detected"]⟩
  else if 3/10 ≤ qa.quality_score then
    if qa.languages.contains ("kannada") then
      ⟨"digital", false, qa.quality_score, ["Good quality Kannada text detected"]⟩
    else
      ⟨"hybrid", true, 3/5,
       ["Text layer exists but no Kannada content - likely OCR artifacts"]⟩
  else if (tr.pages_with_text : ℚ) / (max tr.total_pages 1 : ℚ) < 3/10 then
    ⟨"scanned", true, 4/5, ["Poor text coverage - likely scanned PDF"]⟩
  else
    ⟨"hybrid", true, 7/10,
     ["Poor quality text with good coverage - likely scanned with bad OCR"]⟩

/-- `_get_sample_page_indices` (hybrid_pdf_detector.py): first, last and middle
page, then evenly spaced fill-ins that are skipped (not replaced) when they
collide; finally sorted. -/
def get_sample_page_indices (total sample : Nat) : List Nat :=
  if total ≤ sample then List.range total
  else
    let idxs : List Nat := if 1 ≤ sample then [0] else []
    let idxs := if 2 ≤ sample then idxs ++ [total - 1] else idxs
    let idxs := if 3 ≤ sample then idxs ++ [total / 2] else idxs
    let remaining := sample - idxs.length
    let step := total / (remaining + 1)
    let idxs := (List.range' 1 remaining).foldl
      (fun acc i =>
        if (i * step) ∉ acc ∧ i * step < total then acc ++ [i * step] else acc) idxs
    List.insertionSort (· ≤ ·) idxs

example : get_sample_page_indices 8 5 = [0, 2, 4, 7] := by decide

/-- Environment for `analyze_pdf`: outcomes of the external PDF-parsing
libraries.  An `Except.error`/`none` models the library call raising; a
document is modelled by its page count together with its per-page extracted
text (a mid-iteration extraction failure is not modelled: each library either
fails on open or yields a total page-text function). -/
structure PdfEnv where
  fitzInfo : Except String ProbeInfo
  pypdfInfo : Except String ProbeInfo
  fitzDoc : Option (Nat × (Nat → List Char))
  plumberDoc : Option (Nat × (Nat → List Char))
  pypdfDoc : Option (Nat × (Nat → List Char))

/-- ASCII lowering; Python's `str.lower()` restricted to the ASCII range, which
covers the scanner-indicator comparisons performed on it. -/
def asciiLower (t : List Char) : List Char :=
  t.map (fun c =>
    if 0x41 ≤ c.toNat && c.toNat ≤ 0x5A then Char.ofNat (c.toNat + 32) else c)

/-- The `scanner_indicators` list. -/
def scannerIndicators : List String :=
  ["scan", "acrobat", "adobe scan", "camscanner", "genius scan"]

/-- `_get_basic_pdf_info`: PyMuPDF first, PyPDF2 as fallback (without the
encryption/scanner notes), re-raising when both fail. -/
def get_basic_pdf_info (env : PdfEnv) : Except String (ProbeInfo × List String) :=
  match env.fitzInfo with
  | .ok info =>
    let n1 : List String := if info.is_encrypted then ["PDF is encrypted"] else []
    let creator := asciiLower info.creator
    let producer := asciiLower info.producer
    let n2 : List String :=
      if scannerIndicators.any
          (fun ind => occursIn ind.data creator || occursIn ind.data producer) then
        ["Scanner software detected: " ++
          String.mk (if creator ≠ [] then creator else producer)]
      else []
    .ok (info, n1 ++ n2)
  | .error _ =>
    match env.pypdfInfo with
    | .ok info => .ok (info, ["Used PyPDF2 fallback"])
    | .error e2 => .error e2

/-- One extraction method (`_extract_with_pymupdf` / `_extract_with_pdfplumber`
/ `_extract_with_pypdf2`): for each sampled index inside the document, append
the page text plus a blank line when its stripped form is non-empty. -/
def extractViaDoc (doc : Option (Nat × (Nat → List Char))) (idxs : List Nat) :
    List Char × Nat :=
  match doc with
  | none => ([], 0)
  | some (len, pageText) =>
    idxs.foldl (fun acc i =>
      if i < len then
        let pt := pageText i
        if pyStrip pt ≠ [] then (acc.1 ++ pt ++ "\n\n".data, acc.2 + 1) else acc
      else acc) ([], 0)

/-- `_extract_text_multiple_methods` (hybrid_pdf_detector.py): the cascade of
the three extraction methods with thresholds 100 and 50. -/
def extract_text_multiple_methods (env : PdfEnv) : TextResults :=
  let totalPages := match env.fitzDoc with | some (n, _) => n | none => 1
  let samplePages := min 5 totalPages
  let idxs := get_sample_page_indices totalPages samplePages
  let m1 := extractViaDoc env.fitzDoc idxs
  let st1 :=
    if pyStrip m1.1 ≠ [] then
      (m1.1, true, m1.2,
       ["PyMuPDF extracted (" ++ toString m1.1.length ++ ") chars from " ++
        toString m1.2 ++ " pages"])
    else (([] : List Char), false, 0, ([] : List String))
  let st2 :=
    if st1.1.length < 100 then
      let m2 := extractViaDoc env.plumberDoc idxs
      if pyStrip m2.1 ≠ [] then
        (st1.1 ++ "\n".data ++ m2.1, true, max st1.2.2.1 m2.2,
         st1.2.2.2 ++ ["pdfplumber extracted (" ++ toString m2.1.length ++ ") chars"])
      else st1
    else st1
  let st3 :=
    if st2.1.length < 50 then
      let m3 := extractViaDoc env.pypdfDoc idxs
      if pyStrip m3.1 ≠ [] then
        (st2.1 ++ "\n".data ++ m3.1, true, max st2.2.2.1 m3.2,
         st2.2.2.2 ++ ["PyPDF2 extracted (" ++ toString m3.1.length ++ ") chars"])
      else st2
    else st2
  ⟨st3.1, st3.2.1, st3.2.2.1, idxs.length, totalPages, st3.2.2.2⟩

/-- `PDFAnalysis` (hybrid_pdf_detector.py dataclass). -/
structure PDFAnalysis where
  pdf_type : String
  has_text_layer : Bool
  text_quality_score : ℚ
  total_pages : Nat
  pages_with_text : Nat
  sample_text : List Char
  detected_languages : List String
  needs_ocr : Bool
  confidence : ℚ
  analysis_notes : List String
deriving DecidableEq

/-- `_create_forced_ocr_analysis`: page count via PyMuPDF with a bare-except
fallback to 1. -/
def create_forced_ocr_analysis (env : PdfEnv) : PDFAnalysis :=
  let pageCount := match env.fitzDoc with | some (n, _) => n | none => 1
  ⟨"forced_ocr", false, 0, pageCount, 0, [], [], true, 1,
   ["Force OCR mode enabled by user"]⟩

/-- `analyze_pdf` (hybrid_pdf_detector.py).  The `try/except Exception` around
the analysis is modelled by eliminating the `Except` of the structural probe —
the only step whose exception is not already absorbed internally — into the
safe-fallback analysis; the function is therefore total. -/
def analyze_pdf (env : PdfEnv) (forceOcr : Bool) : PDFAnalysis :=
  if forceOcr then create_forced_ocr_analysis env
  else
    match get_basic_pdf_info env with
    | .error e =>
      ⟨"unknown", false, 0, 1, 0, [], [], true, 1/2,
       ["Analysis failed: " ++ e, "Defaulting to OCR for safety"]⟩
    | .ok (info, notes1) =>
      let tr := extract_text_multiple_methods env
      let qa := analyze_text_quality tr.extracted_text
      let cl := classify_pdf_type info tr qa
      ⟨cl.pdf_type, tr.has_text_layer, qa.quality_score, info.page_count,
       tr.pages_with_text, qa.sample_text.take 200, qa.languages, cl.needs_ocr,
       cl.confidence, notes1 ++ tr.notes ++ qa.notes⟩

/-- `detect_pdf_type` (hybrid_pdf_detector.py): convenience wrapper. -/
def detect_pdf_type (env : PdfEnv) (forceOcr : Bool) : PDFAnalysis :=
  analyze_pdf env forceOcr

/-! ### ocr_to_word.py (recognition orchestration)

The per-page OCR loop of `ocr_pdf_to_word` is embedded over an environment
giving the outcome of each backend call.  `_perform_google_vision_ocr` either
returns text or raises (`TimeoutError` on a timeout; the loop also has an
`except Exception` branch performing the identical fallback, modelled by
`RemoteOutcome.failure`).  `_perform_tesseract_ocr` either returns text (its
internal whitelist/PSM retry ladder and its return-empty-on-generic-error
behaviour are folded into the returned text) or raises `TimeoutError`. -/

/-- Outcome of a remote (Google Vision) recognition call. -/
inductive RemoteOutcome
  | ok (text : List Char)
  | timeout
  | failure (msg : String)
deriving DecidableEq

/-- Outcome of a local (Tesseract) recognition call. -/
inductive LocalOutcome
  | ok (text : List Char)
  | timeout
deriving DecidableEq

/-- Which backend produced a page's text. -/
inductive Backend
  | google
  | tesseract
deriving DecidableEq

/-- One backend invocation, with the timeout budget passed to it. -/
inductive CallEvent
  | remoteCall (page tmo : Nat)
  | localCall (page tmo : Nat)
deriving DecidableEq

/-- What the loop records for one page: either recognised text (raw plus the
post-processed text placed into the document) or the page-level error path
(the `except Exception` branch that appends an error paragraph and
continues). -/
inductive PageRecord
  | recognized (page : Nat) (backend : Backend) (raw cleaned : List Char)
  | failed (page : Nat) (msg : String)
deriving DecidableEq

/-- Environment of backend behaviours: `remote p` is the outcome of the Google
Vision call on page `p` (its timeout argument is fixed to the configured
`ocr_timeout`), `localRec p tmo` the outcome of the Tesseract call on page `p`
with timeout budget `tmo`. -/
structure OcrEnv where
  visionInitOk : Bool
  tessKannadaOk : Bool
  remote : Nat → RemoteOutcome
  localRec : Nat → Nat → LocalOutcome

/-- `_process_ocr_text` (ocr_to_word.py): debug mode skips the legacy pipeline;
the quality validation performed afterwards only logs and does not change the
result, and the internal `except` is unreachable in the model. -/
def process_ocr_text (t : List Char) (isLegacyDetected debugMode : Bool) : List Char :=
  if pyStrip t = [] then []
  else if debugMode then normalize_unicode t
  else post_process_kannada_text t isLegacyDetected

/-- `use_google and (vision_page_limit is None or page_num <= vision_page_limit)`. -/
def visionAllowed (limit : Option Nat) (page : Nat) : Bool :=
  match limit with
  | none => true
  | some l => page ≤ l

/-- A Tesseract call on one page with budget `tmo`, appended to calls already
made for the page. -/
def runLocal (env : OcrEnv) (page tmo : Nat) (debugMode : Bool)
    (callsBefore : List CallEvent) : PageRecord × List CallEvent :=
  match env.localRec page tmo with
  | .ok raw =>
    (.recognized page .tesseract raw
      (process_ocr_text raw (detect_legacy_encoding raw) debugMode),
     callsBefore ++ [.localCall page tmo])
  | .timeout =>
    (.failed page ("Tesseract OCR timed out after (" ++ toString tmo ++ ") seconds"),
     callsBefore ++ [.localCall page tmo])

/-- Processing of a single page of the OCR loop in `ocr_pdf_to_word`: remote
backend when allowed, with a single local fallback at half the timeout budget
on a remote timeout or any other remote exception; otherwise local directly. -/
def processPage (env : OcrEnv) (useGoogle : Bool) (limit : Option Nat)
    (tmo : Nat) (debugMode : Bool) (page : Nat) : PageRecord × List CallEvent :=
  if useGoogle && visionAllowed limit page then
    match env.remote page with
    | .ok raw =>
      (.recognized page .google raw
        (process_ocr_text raw (detect_legacy_encoding raw) debugMode),
       [.remoteCall page tmo])
    | .timeout => runLocal env page (tmo / 2) debugMode [.remoteCall page tmo]
    | .failure _ => runLocal env page (tmo / 2) debugMode [.remoteCall page tmo]
  else runLocal env page tmo debugMode []

/-- The page loop (`for page_num, img in enumerate(images, start=1)`), with the
one-time Vision-client initialisation fallback (`use_google = False` when the
client cannot be constructed) applied before the loop.  Every page appends
exactly one record and processing always continues to the next page. -/
def runOcrPages (env : OcrEnv) (useGoogle : Bool) (limit : Option Nat)
    (tmo : Nat) (debugMode : Bool) (totalPages : Nat) :
    List PageRecord × List CallEvent :=
  (List.range' 1 totalPages).foldl
    (fun acc p =>
      (acc.1 ++ [(processPage env (useGoogle && env.visionInitOk) limit tmo debugMode p).1],
       acc.2 ++ (processPage env (useGoogle && env.visionInitOk) limit tmo debugMode p).2))
    ([], [])

/-- `ocr_pdf_to_word` (ocr_to_word.py), reduced to its recognition behaviour:
the Tesseract-language gate raised before any page processing, then the page
loop. -/
def ocr_pdf_to_word (env : OcrEnv) (useGoogle : Bool) (limit : Option Nat)
    (tmo : Nat) (debugMode : Bool) (totalPages : Nat) :
    Except String (List PageRecord × List CallEvent) :=
  if !useGoogle && !env.tessKannadaOk then
    .error ("Tesseract Kannada language pack not found")
  else .ok (runOcrPages env useGoogle limit tmo debugMode totalPages)

/-- Page number of a call event. -/
def pageOfEvent : CallEvent → Nat
  | .remoteCall p _ => p
  | .localCall p _ => p

/-- Page number of a page record. -/
def pageOfRecord : PageRecord → Nat
  | .recognized p _ _ _ => p
  | .failed p _ => p

/-- The calls made for one particular page. -/
def callsForPage (calls : List CallEvent) (p : Nat) : List CallEvent :=
  calls.filter (fun e => decide (pageOfEvent e = p))

/-! ### Claim theorems -/

/-- Helper: the classification decision table only ever returns one of the
three classification strings. -/
theorem classify_pdf_type_mem (basic : ProbeInfo) (tr : TextResults)
    (qa : QualityResult) :
    (classify_pdf_type basic tr qa).pdf_type ∈
      (["digital", "scanned", "hybrid", "forced_ocr", "unknown"] : List String) := by
  unfold classify_pdf_type
  split
  · simp
  · split
    · split <;> simp
    · split <;> simp

/-- A concrete environment in which both structural parsers fail. -/
def pdfEnvFailing : PdfEnv :=
  ⟨.error ("cannot open"), .error ("cannot parse"), none, none, none⟩

/-- C1 (amended): for every environment and force flag, the classification
field of the analysis returned by `analyze_pdf` is one of exactly
digital, scanned, hybrid, forced_ocr, unknown: the forced short-circuit yields
the (spec-level `forced`) value `forced_ocr`, and the unrecoverable-failure
fallback yields `unknown`; `empty` is never produced. -/
theorem c1_classification_value_set (env : PdfEnv) (forceOcr : Bool) :
    (analyze_pdf env forceOcr).pdf_type ∈
      (["digital", "scanned", "hybrid", "forced_ocr", "unknown"] : List String) := by
  unfold analyze_pdf
  split
  · simp [create_forced_ocr_analysis]
  · split
    · simp
    · dsimp only
      exact classify_pdf_type_mem _ _ _

/-- C1 witness: the set membership applied at the concrete failing
environment. -/
theorem c1_classification_value_set_witness :
    (analyze_pdf pdfEnvFailing false).pdf_type ∈
      (["digital", "scanned", "hybrid", "forced_ocr", "unknown"] : List String) :=
  c1_classification_value_set pdfEnvFailing false

/-- C1 counterexample: the unrecoverable-failure fallback produces the
classification `unknown`, which lies outside the claimed five-value set
digital/scanned/hybrid/empty/forced, and the forced short-circuit produces the
literal `forced_ocr`, not `forced`. -/
theorem c1_counterexample :
    (analyze_pdf pdfEnvFailing false).pdf_type = "unknown" ∧
    "unknown" ∉ (["digital", "scanned", "hybrid", "empty", "forced"] : List String) ∧
    (analyze_pdf pdfEnvFailing true).pdf_type = "forced_ocr" ∧
    "forced_ocr" ∉ (["digital", "scanned", "hybrid", "empty", "forced"] : List String) := by
  decide

/-- C4: whenever multi-method extraction reports no text layer, the
classification decision is `scanned` with `needs_ocr = true` and confidence
exactly 0.9, regardless of the quality score. -/
theorem c4_no_text_layer_scanned (basic : ProbeInfo) (tr : TextResults)
    (qa : QualityResult) (h : tr.has_text_layer = false) :
    classify_pdf_type basic tr qa =
      ⟨"scanned", true, 9/10, ["No text layer detected"]⟩ := by
  unfold classify_pdf_type
  rw [h]
  simp

/-- C4 witness: concrete instance with a perfect quality score, still
classified `scanned` at confidence 0.9. -/
theorem c4_no_text_layer_scanned_witness :
    classify_pdf_type ⟨1, false, [], []⟩ ⟨[], false, 0, 0, 1, []⟩ ⟨1, [], [], []⟩ =
      ⟨"scanned", true, 9/10, ["No text layer detected"]⟩ :=
  c4_no_text_layer_scanned ⟨1, false, [], []⟩ ⟨[], false, 0, 0, 1, []⟩ ⟨1, [], [], []⟩ rfl

/-- C6: `analyze_pdf` is a total function (the catch-all `except` is modelled
by eliminating the structural probe's `Except`); when both structural parsers
fail, it returns the safe fallback with `needs_ocr = true`, confidence exactly
0.5 and a non-empty note list explaining the failure. -/
theorem c6_structural_failure_fallback (env : PdfEnv) (e1 e2 : String)
    (h1 : env.fitzInfo = .error e1) (h2 : env.pypdfInfo = .error e2) :
    (analyze_pdf env false).needs_ocr = true ∧
    (analyze_pdf env false).confidence = 1/2 ∧
    (analyze_pdf env false).analysis_notes =
      ["Analysis failed: " ++ e2, "Defaulting to OCR for safety"] ∧
    (analyze_pdf env false).analysis_notes ≠ [] := by
  unfold analyze_pdf get_basic_pdf_info
  rw [h1, h2]
  simp

/-- C6 witness: the fallback fields at the concrete failing environment. -/
theorem c6_structural_failure_fallback_witness :
    (analyze_pdf pdfEnvFailing false).needs_ocr = true ∧
    (analyze_pdf pdfEnvFailing false).confidence = 1/2 ∧
    (analyze_pdf pdfEnvFailing false).analysis_notes =
      ["Analysis failed: " ++ "cannot parse", "Defaulting to OCR for safety"] ∧
    (analyze_pdf pdfEnvFailing false).analysis_notes ≠ [] :=
  c6_structural_failure_fallback pdfEnvFailing ("cannot open") "cannot parse" rfl rfl

/-- Helper: an if-then-else of two non-negative rationals is non-negative. -/
theorem ite_nonneg (c : Prop) [Decidable c] (a b : ℚ) (ha : 0 ≤ a) (hb : 0 ≤ b) :
    0 ≤ if c then a else b := by
  split <;> assumption

/-- C9 (amended): the quality score always lies in [0, 1]; empty or
whitespace-only input scores exactly 0.0 with the single note
"No text extracted" (capitalised as in the source). -/
theorem c9_quality_score_bounds (t : List Char) :
    0 ≤ (analyze_text_quality t).quality_score ∧
    (analyze_text_quality t).quality_score ≤ 1 ∧
    (pyStrip t = [] →
      (analyze_text_quality t).quality_score = 0 ∧
      (analyze_text_quality t).notes = ["No text extracted"]) := by
  unfold analyze_text_quality
  split
  · simp
  · rename_i hne
    refine ⟨?_, ?_, fun h => absurd h hne⟩
    · dsimp only
      refine le_min (add_nonneg (add_nonneg (add_nonneg ?_ ?_) ?_) ?_) (by norm_num) <;>
        exact ite_nonneg _ _ _ (by norm_num) (by norm_num)
    · dsimp only
      exact min_le_right _ _

/-- C9 witness: the bounds and the empty-input clause applied at the empty
string. -/
theorem c9_quality_score_bounds_witness :
    0 ≤ (analyze_text_quality ("".data)).quality_score ∧
    (analyze_text_quality ("".data)).quality_score = 0 ∧
    (analyze_text_quality ("".data)).notes = ["No text extracted"] :=
  ⟨(c9_quality_score_bounds ("".data)).1,
   ((c9_quality_score_bounds ("".data)).2.2 (by decide)).1,
   ((c9_quality_score_bounds ("".data)).2.2 (by decide)).2⟩

/-- C9 counterexample: on empty input the rationale note is the capitalised
"No text extracted", not the claimed ("no text extracted"). -/
theorem c9_counterexample :
    (analyze_text_quality ("".data)).quality_score = 0 ∧
    (analyze_text_quality ("".data)).notes = ["No text extracted"] ∧
    (analyze_text_quality ("".data)).notes ≠ ["no text extracted"] := by
  decide

/-- C2 (amended): on texts that pass output validation *and* contain more than
three Kannada word tokens, legacy detection never fires.  (Validation passing
forces `is_kannada_text`, and together with the word count this hits the
detector's early exit.) -/
theorem c2_validated_many_words_not_legacy (t : List Char)
    (hok : (validate_kannada_output t).1 = true)
    (hwords : 3 < kannadaWordCount t) :
    detect_legacy_encoding t = false := by
  have hstrip : ¬ pyStrip t = [] := by
    intro h
    unfold validate_kannada_output at hok
    rw [if_pos h] at hok
    exact Bool.noConfusion hok
  have hkan : is_kannada_text t = true := by
    cases hkb : is_kannada_text t
    · unfold validate_kannada_output at hok
      rw [if_neg hstrip] at hok
      simp [hkb] at hok
    · rfl
  have htne : t ≠ [] := by
    intro h; subst h; exact hstrip rfl
  have hc : (is_kannada_text t && decide (3 < kannadaWordCount t)) = true := by
    rw [hkan]; simpa using hwords
  unfold detect_legacy_encoding
  rw [if_neg htne, if_pos hc]

/-- C2 witness: a concrete validated text with four Kannada words, on which
the detector indeed answers false. -/
theorem c2_validated_many_words_not_legacy_witness :
    detect_legacy_encoding ("ಕಕ ಕಕ ಕಕ ಕಕ".data) = false :=
  c2_validated_many_words_not_legacy ("ಕಕ ಕಕ ಕಕ ಕಕ".data) (by decide) (by decide)

/-- C2 counterexample: "ಕಕಕಕ gÀ PÀ" passes `validate_kannada_output` with no
issues (the legacy marker characters are Unicode letters, hence not artifacts),
yet contains only one Kannada word token and two strong legacy indicators, so
`detect_legacy_encoding` fires. -/
theorem c2_counterexample :
    (validate_kannada_output ("ಕಕಕಕ gÀ PÀ".data)).1 = true ∧
    (validate_kannada_output ("ಕಕಕಕ gÀ PÀ".data)).2 = [] ∧
    detect_legacy_encoding ("ಕಕಕಕ gÀ PÀ".data) = true := by
  decide

/-- C5 (amended): the forced second pass of `post_process_kannada_text` runs
exactly when the first-pass result fails script validation and the *processed*
text (not the original input) is longer than 10 characters; otherwise the
first-pass result is returned unchanged. -/
theorem c5_second_pass_condition (t : List Char) (isLegacy : Bool) :
    (is_kannada_text (ppFirstPass t isLegacy) = true ∨
        (ppFirstPass t isLegacy).length ≤ 10 →
      post_process_kannada_text t isLegacy = ppFirstPass t isLegacy) ∧
    (is_kannada_text (ppFirstPass t isLegacy) = false →
      10 < (ppFirstPass t isLegacy).length →
      post_process_kannada_text t isLegacy =
        ppSecondPass (ppFirstPass t isLegacy)) := by
  by_cases ht : t = []
  · subst ht
    have h0 : ppFirstPass [] isLegacy = [] := by cases isLegacy <;> rfl
    constructor
    · intro _
      rw [h0]
      rfl
    · intro _ hlen
      rw [h0] at hlen
      simp at hlen
  · unfold post_process_kannada_text
    rw [if_neg ht]
    constructor
    · intro h
      rw [if_neg]
      intro hc
      rcases h with h | h
      · simp [h] at hc
      · simp [Nat.not_lt.mpr h] at hc
    · intro h1 h2
      rw [if_pos]
      simp [h1, h2]

/-- C5 witness: a 12-character input whose first pass still fails validation
and stays longer than 10 characters, so the second pass runs. -/
theorem c5_second_pass_condition_witness :
    post_process_kannada_text ("FFFFFFFFFFFF".data) false =
      ppSecondPass (ppFirstPass ("FFFFFFFFFFFF".data) false) :=
  (c5_second_pass_condition ("FFFFFFFFFFFF".data) false).2 (by decide) (by decide)

/-- C5 counterexample: for the 11-character input "F" followed by ten spaces,
the original length exceeds 10 and the first-pass result ("F") fails script
validation, yet no second pass occurs (the code tests the processed length 1):
the output is the first-pass result ("F"), while the re-run the claim mandates
would produce ("ಎ"). -/
theorem c5_counterexample :
    10 < ("F          ".data).length ∧
    is_kannada_text (ppFirstPass ("F          ".data) false) = false ∧
    ppFirstPass ("F          ".data) false = "F".data ∧
    post_process_kannada_text ("F          ".data) false = "F".data ∧
    ppSecondPass (ppFirstPass ("F          ".data) false) = "ಎ".data ∧
    "ಎ".data ≠ ("F".data) := by
  decide

/-! ### C7: normalize_unicode idempotence -/

/-- A character that is inert for `normalize_unicode` in the modelled tables:
not in a stripped range, combining class zero, no canonical decomposition and
not part of any primary composite. -/
def inertChar (c : Char) : Bool :=
  !strippedMark c && decide (ccc c = 0) && decide (canonDecomp c = none) &&
    decide (c.toNat ≠ 0xCC6) && decide (c.toNat ≠ 0xCC2)

/-- Unfolding of `inertChar`. -/
theorem inertChar_spec {c : Char} (h : inertChar c = true) :
    strippedMark c = false ∧ ccc c = 0 ∧ canonDecomp c = none ∧
      c.toNat ≠ 0xCC6 ∧ c.toNat ≠ 0xCC2 := by
  unfold inertChar at h
  simp only [Bool.and_eq_true, Bool.not_eq_true', decide_eq_true_eq] at h
  exact ⟨h.1.1.1.1, h.1.1.1.2, h.1.1.2, h.1.2, h.2⟩

/-- Unfolding of `decompList` on a cons cell. -/
theorem decompList_cons (c : Char) (rest : List Char) :
    decompList (c :: rest) =
      (match canonDecomp c with
       | some (a, b) => a :: b :: decompList rest
       | none => c :: decompList rest) := rfl

/-- Decomposition is the identity on undecomposable characters. -/
theorem decompList_eq_self {t : List Char} (h : ∀ c ∈ t, canonDecomp c = none) :
    decompList t = t := by
  induction t with
  | nil => rfl
  | cons c rest ih =>
    rw [decompList_cons, h c (List.mem_cons_self c rest),
      ih fun d hd => h d (List.mem_cons_of_mem _ hd)]

/-- Canonical reordering is the identity on starter-only strings. -/
theorem canonGo_eq_self {t : List Char} (h : ∀ c ∈ t, ccc c = 0) :
    canonGo [] t = t := by
  induction t with
  | nil => rfl
  | cons c rest ih =>
    unfold canonGo
    rw [if_pos (h c (List.mem_cons_self c rest))]
    simp only [sortCcc, List.foldl_nil, List.nil_append, List.cons.injEq, true_and]
    exact ih fun d hd => h d (List.mem_cons_of_mem _ hd)

/-- Composition leaves a starter-only, composite-free string unchanged (with a
pending starter in front). -/
theorem compGo_some_eq_self {t : List Char}
    (h : ∀ c ∈ t, ccc c = 0 ∧ c.toNat ≠ 0xCC6) :
    ∀ s : Char, s.toNat ≠ 0xCC6 → compGo (some s) [] t = s :: t := by
  induction t with
  | nil => intro s _; rfl
  | cons c rest ih =>
    intro s hs
    have hpc : primaryComp s c = none := by
      unfold primaryComp
      simp [hs]
    have hc := h c (List.mem_cons_self c rest)
    unfold compGo
    dsimp only
    rw [hpc]
    rw [if_pos hc.1]
    simpa using ih (fun d hd => h d (List.mem_cons_of_mem _ hd)) c hc.2

/-- Composition is the identity on starter-only, composite-free strings. -/
theorem compGo_none_eq_self {t : List Char}
    (h : ∀ c ∈ t, ccc c = 0 ∧ c.toNat ≠ 0xCC6) :
    compGo none [] t = t := by
  cases t with
  | nil => rfl
  | cons c rest =>
    have hc := h c (List.mem_cons_self c rest)
    unfold compGo
    rw [if_pos hc.1]
    simpa using compGo_some_eq_self (fun d hd => h d (List.mem_cons_of_mem _ hd)) c hc.2

/-- C7 (amended): `normalize_unicode` is not idempotent in general (see the
counterexample); it is the identity — hence idempotent — on every text all of
whose characters are inert (no stripped marks, class zero, no canonical
decomposition, no primary composite), which covers in particular all ASCII and
plain Kannada-letter text. -/
theorem c7_normalize_unicode_inert_idempotent (t : List Char)
    (h : t.all inertChar = true) :
    normalize_unicode t = t ∧
    normalize_unicode (normalize_unicode t) = normalize_unicode t := by
  have hall : ∀ c ∈ t, inertChar c = true := by
    intro c hc
    exact List.all_eq_true.mp h c hc
  have h1 : normalize_unicode t = t := by
    unfold normalize_unicode
    by_cases ht : t = []
    · simp [ht]
    · rw [if_neg ht]
      unfold nfc canonReorder
      rw [decompList_eq_self fun c hc => (inertChar_spec (hall c hc)).2.2.1,
        canonGo_eq_self fun c hc => (inertChar_spec (hall c hc)).2.1,
        compGo_none_eq_self fun c hc =>
          ⟨(inertChar_spec (hall c hc)).2.1, (inertChar_spec (hall c hc)).2.2.2.1⟩]
      exact List.filter_eq_self.mpr fun c hc => by
        simpa using (inertChar_spec (hall c hc)).1
  exact ⟨h1, by rw [h1, h1]⟩

/-- C7 witness: identity and idempotence at a concrete ASCII text. -/
theorem c7_normalize_unicode_inert_idempotent_witness :
    normalize_unicode ("abc def".data) = "abc def".data ∧
    normalize_unicode (normalize_unicode ("abc def".data)) =
      normalize_unicode ("abc def".data) :=
  c7_normalize_unicode_inert_idempotent ("abc def".data) (by decide)

/-- C7 counterexample: on U+0CC6, U+0301, U+0CC2 the first application strips
the blocking combining acute after NFC, and the second application then
composes the now-adjacent Kannada two-part vowel into U+0CCA, so
`normalize(normalize(t)) ≠ normalize(t)`. -/
theorem c7_counterexample :
    normalize_unicode (normalize_unicode ['ೆ', '́', 'ೂ']) ≠
      normalize_unicode ['ೆ', '́', 'ೂ'] ∧
    normalize_unicode ['ೆ', '́', 'ೂ'] = ['ೆ', 'ೂ'] ∧
    normalize_unicode ['ೆ', 'ೂ'] = ['ೊ'] := by
  decide

/-! ### C8: longest-key-first ordering -/

instance : IsTotal (List Char × List Char) byKeyLenDesc :=
  ⟨fun a b => Nat.le_total b.1.length a.1.length⟩

instance : IsTrans (List Char × List Char) byKeyLenDesc :=
  ⟨fun _ _ _ hab hbc => Nat.le_trans hbc hab⟩

/-- C8: the substitution table used by `convert_legacy_to_unicode` is sorted
longest-key-first, and this ordering is load-bearing: the table holds the
overlapping rules ("EgÀ")→"ಇ" and ("EgÀÄ")→"ಈ", and on input ("EgÀÄ") the
longest-first application yields ("ಈ") while applying the shorter overlapping key
first yields ("ಇೂ") ≠ ("ಈ"). -/
theorem c8_longest_key_first_load_bearing :
    List.Sorted byKeyLenDesc legacySorted ∧
    ("EgÀ".data, "ಇ".data) ∈ legacySorted ∧
    ("EgÀÄ".data, "ಈ".data) ∈ legacySorted ∧
    ("EgÀ".data).length < ("EgÀÄ".data).length ∧
    leadsWith ("EgÀ".data) "EgÀÄ".data = true ∧
    convert_legacy_to_unicode ("EgÀÄ".data) = "ಈ".data ∧
    applyReplacements legacySorted ("EgÀÄ".data) = "ಈ".data ∧
    applyReplacements (("EgÀ".data, "ಇ".data) :: legacySorted) "EgÀÄ".data = "ಇೂ".data ∧
    "ಇೂ".data ≠ ("ಈ".data) := by
  refine ⟨?_, by decide, by decide, by decide, by decide, by decide, by decide,
    by decide, by decide⟩
  unfold legacySorted
  exact List.sorted_insertionSort byKeyLenDesc (dictOf rawLegacyEntries)

/-! ### C10: sample page indices -/

/-- Helper: the fill-in fold of `_get_sample_page_indices` preserves
duplicate-freeness and the page bound, and appends at most one index per
step. -/
theorem fillins_invariant (total step : Nat) (l : List Nat) :
    ∀ acc : List Nat, acc.Nodup → (∀ x ∈ acc, x < total) →
      ((l.foldl (fun acc i =>
          if (i * step) ∉ acc ∧ i * step < total then acc ++ [i * step] else acc)
          acc).Nodup ∧
       (∀ x ∈ l.foldl (fun acc i =>
          if (i * step) ∉ acc ∧ i * step < total then acc ++ [i * step] else acc)
          acc, x < total) ∧
       (l.foldl (fun acc i =>
          if (i * step) ∉ acc ∧ i * step < total then acc ++ [i * step] else acc)
          acc).length ≤ acc.length + l.length) := by
  induction l with
  | nil =>
    intro acc hnd hb
    exact ⟨hnd, hb, by simp⟩
  | cons i l ih =>
    intro acc hnd hb
    rw [List.foldl_cons]
    by_cases hc : (i * step) ∉ acc ∧ i * step < total
    · rw [if_pos hc]
      have hnd' : (acc ++ [i * step]).Nodup := by
        simp [List.nodup_append, hnd, hc.1]
      have hb' : ∀ x ∈ acc ++ [i * step], x < total := by
        intro x hx
        rcases List.mem_append.mp hx with hx | hx
        · exact hb x hx
        · simp only [List.mem_singleton] at hx
          subst hx
          exact hc.2
      obtain ⟨a, b, c⟩ := ih (acc ++ [i * step]) hnd' hb'
      refine ⟨a, b, ?_⟩
      simp only [List.length_append, List.length_singleton] at c
      simpa using Nat.le_trans c (by omega)
    · rw [if_neg hc]
      obtain ⟨a, b, c⟩ := ih acc hnd hb
      exact ⟨a, b, Nat.le_trans c (by simp)⟩

/-- Helper: applying the final sort preserves the invariants and upgrades
`Sorted (≤)` plus duplicate-freeness to strict sortedness. -/
theorem insertionSortPack {total sample : Nat} {l : List Nat}
    (hnd : l.Nodup) (hb : ∀ x ∈ l, x < total) (hlen : l.length ≤ sample) :
    List.Sorted (· < ·) (List.insertionSort (· ≤ ·) l) ∧
    (List.insertionSort (· ≤ ·) l).Nodup ∧
    (∀ i ∈ List.insertionSort (· ≤ ·) l, i < total) ∧
    (List.insertionSort (· ≤ ·) l).length ≤ sample := by
  have hperm := List.perm_insertionSort (· ≤ ·) l
  have hnd' : (List.insertionSort (· ≤ ·) l).Nodup := hperm.nodup_iff.mpr hnd
  refine ⟨?_, hnd', ?_, ?_⟩
  · exact (List.sorted_insertionSort (· ≤ ·) l).lt_of_le hnd'
  · intro i hi
    exact hb i (hperm.mem_iff.mp hi)
  · rw [hperm.length_eq]
    exact hlen

/-- C10: for total_pages ≥ 1 and sample_count ≥ 1 the returned index list is
strictly increasing (hence duplicate-free), all indices lie in
[0, total_pages), and the length is at most sample_count; moreover the list can
be strictly shorter than sample_count even when total_pages exceeds it
(witnessed at total=8, sample=5, where the fill-in index 4 collides with the
middle page and is skipped). -/
theorem c10_sample_page_indices (total sample : Nat)
    (htotal : 1 ≤ total) (hsample : 1 ≤ sample) :
    List.Sorted (· < ·) (get_sample_page_indices total sample) ∧
    (get_sample_page_indices total sample).Nodup ∧
    (∀ i ∈ get_sample_page_indices total sample, i < total) ∧
    (get_sample_page_indices total sample).length ≤ sample ∧
    (get_sample_page_indices 8 5).length < 5 := by
  have hshort : (get_sample_page_indices 8 5).length < 5 := by decide
  unfold get_sample_page_indices
  by_cases hts : total ≤ sample
  · rw [if_pos hts]
    refine ⟨List.sorted_lt_range total, List.nodup_range total,
      fun i => List.mem_range.mp, by simpa using hts, hshort⟩
  · rw [if_neg hts]
    push_neg at hts
    simp only [if_pos hsample]
    by_cases hs3 : 3 ≤ sample
    · have hs2 : 2 ≤ sample := by omega
      simp only [if_pos hs2, if_pos hs3]
      have htot4 : 4 ≤ total := by omega
      obtain ⟨a, b, c⟩ := fillins_invariant total
        (total / (sample - ([0] ++ [total - 1] ++ [total / 2]).length + 1))
        (List.range' 1 (sample - ([0] ++ [total - 1] ++ [total / 2]).length))
        ([0] ++ [total - 1] ++ [total / 2])
        (by simp; omega)
        (by simp; omega)
      obtain ⟨s1, s2, s3, s4⟩ := @insertionSortPack total sample _ a b
        (Nat.le_trans c (by simp [List.length_range']; omega))
      exact ⟨s1, s2, s3, s4, hshort⟩
    · by_cases hs2 : 2 ≤ sample
      · simp only [if_pos hs2, if_neg hs3]
        have htot3 : 3 ≤ total := by omega
        obtain ⟨a, b, c⟩ := fillins_invariant total
          (total / (sample - ([0] ++ [total - 1]).length + 1))
          (List.range' 1 (sample - ([0] ++ [total - 1]).length))
          ([0] ++ [total - 1])
          (by simp; omega)
          (by simp; omega)
        obtain ⟨s1, s2, s3, s4⟩ := @insertionSortPack total sample _ a b
          (Nat.le_trans c (by simp [List.length_range']; omega))
        exact ⟨s1, s2, s3, s4, hshort⟩
      · simp only [if_neg hs2, if_neg hs3]
        obtain ⟨a, b, c⟩ := fillins_invariant total
          (total / (sample - [0].length + 1))
          (List.range' 1 (sample - [0].length))
          [0]
          (by simp)
          (by simp; omega)
        obtain ⟨s1, s2, s3, s4⟩ := @insertionSortPack total sample _ a b
          (Nat.le_trans c (by simp [List.length_range']; omega))
        exact ⟨s1, s2, s3, s4, hshort⟩

/-- C10 witness: the invariants applied at total=8, sample=5. -/
theorem c10_sample_page_indices_witness :
    List.Sorted (· < ·) (get_sample_page_indices 8 5) ∧
    (get_sample_page_indices 8 5).Nodup ∧
    (∀ i ∈ get_sample_page_indices 8 5, i < 8) ∧
    (get_sample_page_indices 8 5).length ≤ 5 ∧
    (get_sample_page_indices 8 5).length < 5 :=
  c10_sample_page_indices 8 5 (by decide) (by decide)

/-! ### C3: per-page remote-failure fallback -/

/-- Helper: accumulating fold producing one record per element and a
concatenated trace. -/
theorem foldl_accumulate {α : Type} (f : Nat → α) (g : Nat → List CallEvent) :
    ∀ (l : List Nat) (a : List α) (b : List CallEvent),
      l.foldl (fun acc p => (acc.1 ++ [f p], acc.2 ++ g p)) (a, b) =
        (a ++ l.map f, b ++ (l.map g).flatten) := by
  intro l
  induction l with
  | nil => intro a b; simp
  | cons p l ih =>
    intro a b
    rw [List.foldl_cons, ih]
    simp

/-- Helper: the page loop equals a map over the page numbers, with the call
traces concatenated in page order. -/
theorem runOcrPages_eq (env : OcrEnv) (useGoogle : Bool) (limit : Option Nat)
    (tmo : Nat) (debugMode : Bool) (totalPages : Nat) :
    runOcrPages env useGoogle limit tmo debugMode totalPages =
      ((List.range' 1 totalPages).map
        (fun p => (processPage env (useGoogle && env.visionInitOk) limit tmo debugMode p).1),
       ((List.range' 1 totalPages).map
        (fun p => (processPage env (useGoogle && env.visionInitOk) limit tmo debugMode p).2)).flatten) := by
  unfold runOcrPages
  rw [foldl_accumulate
    (fun p => (processPage env (useGoogle && env.visionInitOk) limit tmo debugMode p).1)
    (fun p => (processPage env (useGoogle && env.visionInitOk) limit tmo debugMode p).2)
    (List.range' 1 totalPages) [] []]
  simp

/-- Helper: every record carries the number of the page it was produced for. -/
theorem processPage_record_page (env : OcrEnv) (useG : Bool) (limit : Option Nat)
    (tmo : Nat) (dbg : Bool) (p : Nat) :
    pageOfRecord (processPage env useG limit tmo dbg p).1 = p := by
  rw [processPage]
  by_cases hv : (useG && visionAllowed limit p) = true
  · rw [if_pos hv]
    cases hr : env.remote p
    · rfl
    · rw [runLocal]
      cases hl : env.localRec p (tmo / 2) <;> rfl
    · rw [runLocal]
      cases hl : env.localRec p (tmo / 2) <;> rfl
  · rw [if_neg hv, runLocal]
    cases hl : env.localRec p tmo <;> rfl

/-- Helper: every call event of a page's processing mentions that page. -/
theorem processPage_event_page (env : OcrEnv) (useG : Bool) (limit : Option Nat)
    (tmo : Nat) (dbg : Bool) (p : Nat) :
    ∀ e ∈ (processPage env useG limit tmo dbg p).2, pageOfEvent e = p := by
  rw [processPage]
  by_cases hv : (useG && visionAllowed limit p) = true
  · rw [if_pos hv]
    cases hr : env.remote p
    · intro e he
      simp only [List.mem_singleton] at he
      subst he
      rfl
    · rw [runLocal]
      cases hl : env.localRec p (tmo / 2) <;>
        (intro e he
         rcases List.mem_append.mp he with he | he <;>
           (simp only [List.mem_singleton] at he; subst he; rfl))
    · rw [runLocal]
      cases hl : env.localRec p (tmo / 2) <;>
        (intro e he
         rcases List.mem_append.mp he with he | he <;>
           (simp only [List.mem_singleton] at he; subst he; rfl))
  · rw [if_neg hv, runLocal]
    cases hl : env.localRec p tmo <;>
      (intro e he
       rcases List.mem_append.mp he with he | he <;>
         first
         | (simp only [List.mem_singleton] at he; subst he; rfl)
         | cases he)

/-- Helper: filtering a concatenation of per-page traces distributes. -/
theorem filter_flatten_map {β : Type} (F : β → List CallEvent) (pr : CallEvent → Bool)
    (l : List β) :
    ((l.map F).flatten).filter pr = (l.map (fun b => (F b).filter pr)).flatten := by
  induction l with
  | nil => rfl
  | cons b l ih => simp [List.filter_append, ih]

/-- Helper: pages other than `p` contribute nothing to the page-`p` trace. -/
theorem flatten_nil_of_not_mem (env : OcrEnv) (useG : Bool) (limit : Option Nat)
    (tmo : Nat) (dbg : Bool) (p : Nat) :
    ∀ l : List Nat, p ∉ l →
      ((l.map (fun q => (processPage env useG limit tmo dbg q).2.filter
          (fun e => decide (pageOfEvent e = p))))).flatten = [] := by
  intro l
  induction l with
  | nil => intro _; rfl
  | cons q l ih =>
    intro hp
    simp only [List.map_cons, List.flatten_cons]
    rw [List.filter_eq_nil_iff.mpr, ih (fun h => hp (List.mem_cons_of_mem _ h))]
    · rfl
    · intro e he
      have := processPage_event_page env useG limit tmo dbg q e he
      simp only [this, decide_eq_true_eq]
      intro h
      exact hp (h ▸ List.mem_cons_self q l)

/-- Helper: on a duplicate-free page list containing `p`, the page-`p` trace is
exactly the trace of processing page `p`. -/
theorem flatten_single_page (env : OcrEnv) (useG : Bool) (limit : Option Nat)
    (tmo : Nat) (dbg : Bool) (p : Nat) :
    ∀ l : List Nat, l.Nodup → p ∈ l →
      ((l.map (fun q => (processPage env useG limit tmo dbg q).2.filter
          (fun e => decide (pageOfEvent e = p))))).flatten =
        (processPage env useG limit tmo dbg p).2 := by
  intro l
  induction l with
  | nil => intro _ h; cases h
  | cons q l ih =>
    intro hnd hp
    simp only [List.map_cons, List.flatten_cons]
    by_cases hqp : q = p
    · subst hqp
      rw [List.filter_eq_self.mpr, flatten_nil_of_not_mem env useG limit tmo dbg q l
          (List.nodup_cons.mp hnd).1, List.append_nil]
      intro e he
      simp [processPage_event_page env useG limit tmo dbg q e he]
    · rw [List.filter_eq_nil_iff.mpr, List.nil_append]
      · exact ih (List.nodup_cons.mp hnd).2
          (by rcases List.mem_cons.mp hp with h | h
              · exact absurd h.symm hqp
              · exact h)
      · intro e he
        have := processPage_event_page env useG limit tmo dbg q e he
        simp only [this, decide_eq_true_eq]
        exact hqp

/-- C3: when the remote backend raises a timeout (or any other exception) on a
page for which it was selected, the orchestrator makes exactly one fallback
call to the local backend for that page, with half the original timeout
budget; a record is emitted for the page (with the local backend and its text
when the fallback succeeds), and every one of the n pages still receives
exactly one record, in page order. -/
theorem c3_remote_failure_single_fallback
    (env : OcrEnv) (limit : Option Nat) (tmo : Nat) (dbg : Bool) (n p : Nat)
    (raw : List Char)
    (hinit : env.visionInitOk = true)
    (hallow : visionAllowed limit p = true)
    (hp1 : 1 ≤ p) (hpn : p ≤ n)
    (hremote : ∀ s, env.remote p ≠ RemoteOutcome.ok s)
    (hlocal : env.localRec p (tmo / 2) = LocalOutcome.ok raw) :
    callsForPage (runOcrPages env true limit tmo dbg n).2 p =
      [CallEvent.remoteCall p tmo, CallEvent.localCall p (tmo / 2)] ∧
    (runOcrPages env true limit tmo dbg n).1.length = n ∧
    ((runOcrPages env true limit tmo dbg n).1).map pageOfRecord = List.range' 1 n ∧
    PageRecord.recognized p Backend.tesseract raw
        (process_ocr_text raw (detect_legacy_encoding raw) dbg) ∈
      (runOcrPages env true limit tmo dbg n).1 := by
  have hpmem : p ∈ List.range' 1 n := by
    rw [List.mem_range'_1]
    omega
  have hpp : processPage env (true && env.visionInitOk) limit tmo dbg p =
      (PageRecord.recognized p Backend.tesseract raw
        (process_ocr_text raw (detect_legacy_encoding raw) dbg),
       [CallEvent.remoteCall p tmo, CallEvent.localCall p (tmo / 2)]) := by
    rw [processPage, hinit]
    rw [if_pos (by simp [hallow])]
    cases hr : env.remote p with
    | ok s => exact absurd hr (hremote s)
    | timeout =>
      rw [runLocal, hlocal]
      rfl
    | failure m =>
      rw [runLocal, hlocal]
      rfl
  refine ⟨?_, ?_, ?_, ?_⟩
  · rw [runOcrPages_eq]
    unfold callsForPage
    rw [filter_flatten_map, flatten_single_page env (true && env.visionInitOk)
        limit tmo dbg p (List.range' 1 n) (List.nodup_range' 1 n) hpmem, hpp]
  · rw [runOcrPages_eq]
    simp [List.length_range']
  · rw [runOcrPages_eq]
    simp only [List.map_map, Function.comp_def]
    exact (List.map_congr_left
      (fun q _ => processPage_record_page env (true && env.visionInitOk) limit tmo dbg q)).trans
      (List.map_id _)
  · rw [runOcrPages_eq]
    have h2 := List.mem_map_of_mem
      (fun q => (processPage env (true && env.visionInitOk) limit tmo dbg q).1) hpmem
    simp only at h2
    rw [hpp] at h2
    simpa using h2

/-- A concrete backend environment for scenario D: the remote backend times out
on page 3 and succeeds elsewhere; the local backend always returns text. -/
def ocrEnvD : OcrEnv :=
  ⟨true, true,
   fun p => if p = 3 then RemoteOutcome.timeout else RemoteOutcome.ok ("ಕ".data),
   fun _ _ => LocalOutcome.ok ("ಮ".data)⟩

/-- C3 witness: scenario D with four pages and a remote timeout on page 3. -/
theorem c3_remote_failure_single_fallback_witness :
    callsForPage (runOcrPages ocrEnvD true none 30 false 4).2 3 =
      [CallEvent.remoteCall 3 30, CallEvent.localCall 3 15] ∧
    (runOcrPages ocrEnvD true none 30 false 4).1.length = 4 ∧
    ((runOcrPages ocrEnvD true none 30 false 4).1).map pageOfRecord =
      List.range' 1 4 ∧
    PageRecord.recognized 3 Backend.tesseract ("ಮ".data)
        (process_ocr_text ("ಮ".data) (detect_legacy_encoding ("ಮ".data)) false) ∈
      (runOcrPages ocrEnvD true none 30 false 4).1 :=
  c3_remote_failure_single_fallback ocrEnvD none 30 false 4 3 ("ಮ".data) rfl rfl
    (by decide) (by decide) (fun s h => by simp [ocrEnvD] at h) rfl

end TextUtils
